import Mathlib

/-!
Shallow embedding of the Bubble-Sim physics core (src/bubble_sim.c).

Conventions of the embedding:
* C `float` values are modelled as exact rationals (`ℚ`); decimal literals of
  the source become the corresponding rationals (0.5f ↦ 1/2, 0.00001f ↦
  1/100000, 0.001f ↦ 1/1000, 0.2f ↦ 1/5).
* `sqrtf` is modelled as an explicit parameter `sqrtA : ℚ → ℚ`; theorems that
  depend on the square root carry the hypotheses they need about its value at
  the argument actually used (non-negativity, being an exact square root).
* The 32-bit LCG state is a natural number reduced mod 2^32; `& 0x00FFFFFF`
  is `Nat.land` with the same mask.
* The body array is an `Array PhysicsBody`; in-place mutation of `bodies[i]`
  becomes `Array.setD`.  The C null-pointer guards on `bodies`, `bounds` and
  `rng` (`if(!bodies)`, `if(bounds)`, `if(rng)`) are vacuous here: the
  embedding passes the structures by value, and the empty-array case models
  both `count == 0` and a null body pointer.
-/

/-- Simulated circular body, mirroring `PhysicsBody` of src/bubble_sim.c.
The C field `int group` is always one of 0,1,2 in the app, modelled as `ℕ`. -/
structure PhysicsBody where
  x : ℚ
  y : ℚ
  vx : ℚ
  vy : ℚ
  ax : ℚ
  ay : ℚ
  radius : ℚ
  inv_mass : ℚ
  restitution : ℚ
  group : ℕ
  spawn_cooldown : Int
  pop_chance : ℚ
  popped : Bool
deriving DecidableEq

instance : Inhabited PhysicsBody :=
  ⟨⟨0, 0, 0, 0, 0, 0, 0, 0, 0, 0, 0, 0, false⟩⟩

/-- Arena rectangle, mirroring `WorldBounds` of src/bubble_sim.c. -/
structure WorldBounds where
  min_x : ℚ
  max_x : ℚ
  min_y : ℚ
  max_y : ℚ
deriving DecidableEq

/-- Linear-congruential RNG state, mirroring `SimpleRng` (a single uint32). -/
structure SimpleRng where
  state : ℕ
deriving DecidableEq

/-- Modulus of the 32-bit state. -/
def UINT32_MOD : ℕ := 4294967296

/-- Mirrors `rng_next`: `state = state * 1664525u + 1013904223u` (mod 2^32),
returning the new state. -/
def rng_next (r : SimpleRng) : SimpleRng :=
  ⟨(r.state * 1664525 + 1013904223) % UINT32_MOD⟩

/-- Mirrors `rng_next_float01`: advances the state once and returns
`(next & 0x00FFFFFF) / 0x01000000` (exact in float: 24-bit numerator,
power-of-two denominator), paired with the advanced state. -/
def rng_next_float01 (r : SimpleRng) : ℚ × SimpleRng :=
  let r1 := rng_next r
  (((Nat.land r1.state 0xFFFFFF : ℕ) : ℚ) / 16777216, r1)

/-- Mirrors `ph_len2`: squared length of a 2-vector. -/
def ph_len2 (x y : ℚ) : ℚ :=
  x * x + y * y

/-- Mirrors `body_is_visible_vertical` (bounds passed by value, never null):
the circle intersects the vertical band `[min_y, max_y]`. -/
def body_is_visible_vertical (b : PhysicsBody) (bounds : WorldBounds) : Bool :=
  let top := b.y - b.radius
  let bottom := b.y + b.radius
  ¬(bottom < bounds.min_y ∨ bounds.max_y < top)

/-- Phase 1 of `physics_step` for one body (lines 97-125 of src/bubble_sim.c):
integrate velocity and position for dynamic non-popped bodies, clamp and
reflect against the horizontal walls, decrement the spawn cooldown. -/
def integrate_body (dt gravity_y : ℚ) (bounds : WorldBounds) (b0 : PhysicsBody) :
    PhysicsBody :=
  let b1 :=
    if 0 < b0.inv_mass ∧ b0.popped = false then
      let vy := b0.vy + (b0.ay + gravity_y) * dt
      let vx := b0.vx + b0.ax * dt
      { b0 with vx := vx, vy := vy, x := b0.x + vx * dt, y := b0.y + vy * dt }
    else b0
  let b2 :=
    let r := b1.radius
    if b1.x - r < bounds.min_x then
      { b1 with x := bounds.min_x + r,
                vx := if b1.vx < 0 then -b1.vx * b1.restitution else b1.vx }
    else if bounds.max_x < b1.x + r then
      { b1 with x := bounds.max_x - r,
                vx := if 0 < b1.vx then -b1.vx * b1.restitution else b1.vx }
    else b1
  if 0 < b2.spawn_cooldown then { b2 with spawn_cooldown := b2.spawn_cooldown - 1 }
  else b2

/-- Continuation of the inner collision loop of `physics_step` after the
overlap test (lines 160-224 of src/bubble_sim.c): square root of the squared
distance, penetration guard, combined-inverse-mass guard, positional
correction, impulse response and the pop decision, for the normal direction
`(dx, dy)` and squared distance `dist2` computed by the caller. -/
def resolve_core (sqrtA : ℚ → ℚ) (dx dy dist2 : ℚ)
    (a b : PhysicsBody) (rng : SimpleRng) : PhysicsBody × PhysicsBody × SimpleRng :=
  let r_sum := a.radius + b.radius
  let dist := sqrtA dist2
  let penetration := r_sum - dist
  if penetration ≤ 0 then (a, b, rng) else
  let nx := dx / dist
  let ny := dy / dist
  let inv_ma := a.inv_mass
  let inv_mb := b.inv_mass
  let inv_sum := inv_ma + inv_mb
  if inv_sum ≤ 0 then (a, b, rng) else
  let move_a := inv_ma / inv_sum * penetration
  let move_b := inv_mb / inv_sum * penetration
  let a1 := if 0 < inv_ma then
      { a with x := a.x - nx * move_a, y := a.y - ny * move_a } else a
  let b1 := if 0 < inv_mb then
      { b with x := b.x + nx * move_b, y := b.y + ny * move_b } else b
  let rvx := b1.vx - a1.vx
  let rvy := b1.vy - a1.vy
  let vel_norm := rvx * nx + rvy * ny
  if 0 < vel_norm then (a1, b1, rng) else
  let e := (a1.restitution + b1.restitution) * (1/2)
  let j_impulse := -(1 + e) * vel_norm / inv_sum
  let ix := j_impulse * nx
  let iy := j_impulse * ny
  let a2 := if 0 < inv_ma then
      { a1 with vx := a1.vx - ix * inv_ma, vy := a1.vy - iy * inv_ma } else a1
  let b2 := if 0 < inv_mb then
      { b1 with vx := b1.vx + ix * inv_mb, vy := b1.vy + iy * inv_mb } else b1
  let avg_pop := (a2.pop_chance + b2.pop_chance) * (1/2)
  if 0 < avg_pop then
    let u := (rng_next_float01 rng).1
    let rng1 := (rng_next_float01 rng).2
    if u < avg_pop then
      if a2.radius ≤ b2.radius then ({ a2 with popped := true }, b2, rng1)
      else (a2, { b2 with popped := true }, rng1)
    else (a2, b2, rng1)
  else (a2, b2, rng)

/-- Body of the inner collision loop of `physics_step` (lines 134-225 of
src/bubble_sim.c) for one ordered pair `(a, b)`: skip guards, degenerate
distance substitution and overlap test, then `resolve_core`.  `vis_a` is the
visibility of `a` computed once at the top of the outer iteration (the source
does not recompute it after positional corrections move `a`). -/
def resolve_pair (sqrtA : ℚ → ℚ) (bounds : WorldBounds) (vis_a : Bool)
    (a b : PhysicsBody) (rng : SimpleRng) : PhysicsBody × PhysicsBody × SimpleRng :=
  if b.popped then (a, b, rng) else
  let vis_b := body_is_visible_vertical b bounds
  if vis_a = false ∧ vis_b = false then (a, b, rng) else
  if 0 < a.spawn_cooldown ∨ 0 < b.spawn_cooldown then (a, b, rng) else
  let dx0 := b.x - a.x
  let dy0 := b.y - a.y
  let r_sum := a.radius + b.radius
  let dist2_0 := ph_len2 dx0 dy0
  let dx := if dist2_0 ≤ 1/100000 then 1/1000 else dx0
  let dy := if dist2_0 ≤ 1/100000 then 0 else dy0
  let dist2 := if dist2_0 ≤ 1/100000 then ph_len2 (1/1000) 0 else dist2_0
  if r_sum * r_sum < dist2 then (a, b, rng) else
  resolve_core sqrtA dx dy dist2 a b rng

/-- Inner `j` loop of the collision pass: for each index `j` in the list,
resolve the pair `(bodies[i], bodies[j])` in place. -/
def collide_inner (sqrtA : ℚ → ℚ) (bounds : WorldBounds) (i : ℕ) (vis_a : Bool) :
    List ℕ → Array PhysicsBody × SimpleRng → Array PhysicsBody × SimpleRng
  | [], st => st
  | j :: js, (arr, rng) =>
    let a := arr.getD i default
    let b := arr.getD j default
    let res := resolve_pair sqrtA bounds vis_a a b rng
    collide_inner sqrtA bounds i vis_a js ((arr.setD i res.1).setD j res.2.1, res.2.2)

/-- Outer `i` loop of the collision pass: skip popped bodies, compute the
visibility of `bodies[i]` once, then run the inner loop over `j > i`. -/
def collide_outer (sqrtA : ℚ → ℚ) (bounds : WorldBounds) :
    List ℕ → Array PhysicsBody × SimpleRng → Array PhysicsBody × SimpleRng
  | [], st => st
  | i :: is, (arr, rng) =>
    let a := arr.getD i default
    let st1 :=
      if a.popped then (arr, rng)
      else
        collide_inner sqrtA bounds i (body_is_visible_vertical a bounds)
          (List.range' (i + 1) (arr.size - (i + 1))) (arr, rng)
    collide_outer sqrtA bounds is st1

/-- Mirrors `physics_step` (lines 85-227 of src/bubble_sim.c): early return on
`dt <= 0` or an empty body set, then the integration pass followed by the
O(n^2) collision pass. -/
def physics_step (sqrtA : ℚ → ℚ) (bodies : Array PhysicsBody) (dt gravity_y : ℚ)
    (bounds : WorldBounds) (rng : SimpleRng) : Array PhysicsBody × SimpleRng :=
  if dt ≤ 0 then (bodies, rng)
  else if bodies.size = 0 then (bodies, rng)
  else
    let integrated := bodies.map (integrate_body dt gravity_y bounds)
    collide_outer sqrtA bounds (List.range integrated.size) (integrated, rng)

/-- Per-group tunables, mirroring `BubbleGroupConfig` of src/bubble_sim.c
(the display-only `name` pointer is not part of the simulation state). -/
structure BubbleGroupConfig where
  count : Int
  radius : ℚ
  rise_speed : ℚ
  restitution : ℚ
  pop_chance : ℚ
deriving DecidableEq

instance : Inhabited BubbleGroupConfig := ⟨⟨0, 0, 0, 0, 0⟩⟩

/-- Mirrors `SPAWN_COOLDOWN_FRAMES`. -/
def SPAWN_COOLDOWN_FRAMES : Int := 10

/-- Mirrors `bubble_respawn_body` (lines 483-506 of src/bubble_sim.c):
randomized horizontal placement in `[min_x+r, max_x-r]`, vertical placement
`max_y + r + 40` plus up to 20 extra, upward rise velocity with 20% jitter,
cooldown reset, popped flag cleared. -/
def bubble_respawn_body (groups : List BubbleGroupConfig) (bounds : WorldBounds)
    (b : PhysicsBody) (rng : SimpleRng) : PhysicsBody × SimpleRng :=
  let cfg := groups.getD b.group default
  let r := b.radius
  let d1 := rng_next_float01 rng
  let x := (bounds.min_x + r) + d1.1 * ((bounds.max_x - r) - (bounds.min_x + r))
  let y_base := bounds.max_y + r + 40
  let d2 := rng_next_float01 d1.2
  let y := y_base + d2.1 * 20
  let d3 := rng_next_float01 d2.2
  let jitter := (d3.1 - 1/2) * cfg.rise_speed * (1/5)
  ({ b with x := x, y := y, vx := jitter, vy := -cfg.rise_speed, ax := 0, ay := 0,
            spawn_cooldown := SPAWN_COOLDOWN_FRAMES, popped := false }, rng)

/-- First lifecycle loop of the app tick (lines 749-754 of src/bubble_sim.c):
respawn every body whose popped flag is set. -/
def respawn_popped_loop (groups : List BubbleGroupConfig) (bounds : WorldBounds) :
    List ℕ → Array PhysicsBody × SimpleRng → Array PhysicsBody × SimpleRng
  | [], st => st
  | i :: is, (arr, rng) =>
    let b := arr.getD i default
    let st1 :=
      if b.popped then
        let res := bubble_respawn_body groups bounds b rng
        (arr.setD i res.1, res.2)
      else (arr, rng)
    respawn_popped_loop groups bounds is st1

/-- Second lifecycle loop of the app tick (lines 756-762 of src/bubble_sim.c):
respawn every body strictly beyond the off-top margin
(`y + radius < min_y - 20`). -/
def respawn_offtop_loop (groups : List BubbleGroupConfig) (bounds : WorldBounds) :
    List ℕ → Array PhysicsBody × SimpleRng → Array PhysicsBody × SimpleRng
  | [], st => st
  | i :: is, (arr, rng) =>
    let b := arr.getD i default
    let st1 :=
      if b.y + b.radius < bounds.min_y - 20 then
        let res := bubble_respawn_body groups bounds b rng
        (arr.setD i res.1, res.2)
      else (arr, rng)
    respawn_offtop_loop groups bounds is st1

/-- One lifecycle pass of the app tick, as run by `bubble_sim_app` after
`physics_step`: the popped-respawn loop followed by the off-top loop. -/
def bubble_lifecycle_pass (groups : List BubbleGroupConfig) (bounds : WorldBounds)
    (st : Array PhysicsBody × SimpleRng) : Array PhysicsBody × SimpleRng :=
  respawn_offtop_loop groups bounds (List.range st.1.size)
    (respawn_popped_loop groups bounds (List.range st.1.size) st)

/-- Exact square-root table used to instantiate the `sqrtA` parameter on the
concrete inputs of witnesses and counterexamples (all of which have
perfect-square squared distances). -/
def sqrtTab (q : ℚ) : ℚ :=
  if q = 25 then 5 else if q = 9 then 3 else if q = 4 then 2 else 0

/-- Tail of `resolve_pair` from the positional correction onward, with the
square-root value passed explicitly as `dist`; `resolve_pair_main` below shows
`resolve_pair` reduces to this on every pair that passes all skip guards. -/
def resolve_tail (dist : ℚ) (a b : PhysicsBody) (rng : SimpleRng) :
    PhysicsBody × PhysicsBody × SimpleRng :=
  let dx := b.x - a.x
  let dy := b.y - a.y
  let r_sum := a.radius + b.radius
  let penetration := r_sum - dist
  let nx := dx / dist
  let ny := dy / dist
  let inv_ma := a.inv_mass
  let inv_mb := b.inv_mass
  let inv_sum := inv_ma + inv_mb
  let move_a := inv_ma / inv_sum * penetration
  let move_b := inv_mb / inv_sum * penetration
  let a1 := if 0 < inv_ma then
      { a with x := a.x - nx * move_a, y := a.y - ny * move_a } else a
  let b1 := if 0 < inv_mb then
      { b with x := b.x + nx * move_b, y := b.y + ny * move_b } else b
  let rvx := b1.vx - a1.vx
  let rvy := b1.vy - a1.vy
  let vel_norm := rvx * nx + rvy * ny
  if 0 < vel_norm then (a1, b1, rng) else
  let e := (a1.restitution + b1.restitution) * (1/2)
  let j_impulse := -(1 + e) * vel_norm / inv_sum
  let ix := j_impulse * nx
  let iy := j_impulse * ny
  let a2 := if 0 < inv_ma then
      { a1 with vx := a1.vx - ix * inv_ma, vy := a1.vy - iy * inv_ma } else a1
  let b2 := if 0 < inv_mb then
      { b1 with vx := b1.vx + ix * inv_mb, vy := b1.vy + iy * inv_mb } else b1
  let avg_pop := (a2.pop_chance + b2.pop_chance) * (1/2)
  if 0 < avg_pop then
    let u := (rng_next_float01 rng).1
    let rng1 := (rng_next_float01 rng).2
    if u < avg_pop then
      if a2.radius ≤ b2.radius then ({ a2 with popped := true }, b2, rng1)
      else (a2, { b2 with popped := true }, rng1)
    else (a2, b2, rng1)
  else (a2, b2, rng)


/-- Relative velocity of the pair along the collision normal, as computed on
the main path of `resolve_pair` (the normal is `(dx/dist, dy/dist)`). -/
def vel_norm_of (d : ℚ) (a b : PhysicsBody) : ℚ :=
  (b.vx - a.vx) * ((b.x - a.x) / d) + (b.vy - a.vy) * ((b.y - a.y) / d)

/-- Average pop chance of the pair, as computed by `resolve_pair`. -/
def avg_pop_of (a b : PhysicsBody) : ℚ :=
  (a.pop_chance + b.pop_chance) * (1/2)

/-- Impulse scalar of the pair, as computed on the main path of
`resolve_pair`. -/
def impulse_of (d : ℚ) (a b : PhysicsBody) : ℚ :=
  -(1 + (a.restitution + b.restitution) * (1/2)) * vel_norm_of d a b /
    (a.inv_mass + b.inv_mass)


/-- Frame relation for one body across an operation of `physics_step`: the
fields radius, inverse mass, restitution, group and pop chance are unchanged,
and the popped flag is never cleared (it may only be set). -/
def frame_preserved (b b' : PhysicsBody) : Prop :=
  b'.radius = b.radius ∧ b'.inv_mass = b.inv_mass ∧
  b'.restitution = b.restitution ∧ b'.group = b.group ∧
  b'.pop_chance = b.pop_chance ∧ (b.popped = true → b'.popped = true)

/-- Frame relation lifted to whole body arrays: same size, and
`frame_preserved` index-wise. -/
def frames_ok (orig arr : Array PhysicsBody) : Prop :=
  arr.size = orig.size ∧
  ∀ k : ℕ, frame_preserved (orig.getD k default) (arr.getD k default)

theorem rng_next_float01_nonneg (r : SimpleRng) : 0 ≤ (rng_next_float01 r).1 := by
  unfold rng_next_float01
  positivity

theorem rng_next_float01_lt_one (r : SimpleRng) : (rng_next_float01 r).1 < 1 := by
  unfold rng_next_float01
  have h : Nat.land (rng_next r).state 0xFFFFFF ≤ 0xFFFFFF := Nat.and_le_right
  have h2 : ((Nat.land (rng_next r).state 0xFFFFFF : ℕ) : ℚ) ≤ 16777215 := by
    exact_mod_cast h
  simp only
  rw [div_lt_one (by norm_num)]
  linarith

/-- C8: `rng_next_float01` returns exactly `(next & 0x00FFFFFF) / 0x01000000`
on the advanced state, and this value always lies in `[0, 1)`. -/
theorem c8_rng_float01 (r : SimpleRng) :
    (rng_next_float01 r).1 =
      ((Nat.land (rng_next r).state 0xFFFFFF : ℕ) : ℚ) / 16777216 ∧
    (rng_next_float01 r).2 = rng_next r ∧
    0 ≤ (rng_next_float01 r).1 ∧ (rng_next_float01 r).1 < 1 :=
  ⟨rfl, rfl, rng_next_float01_nonneg r, rng_next_float01_lt_one r⟩

/-- C9: with a non-positive timestep, or with an empty body set, `physics_step`
is a silent no-op: the bodies and the random stream are returned unchanged. -/
theorem c9_noop (sqrtA : ℚ → ℚ) (bodies : Array PhysicsBody) (dt gravity_y : ℚ)
    (bounds : WorldBounds) (rng : SimpleRng)
    (h : dt ≤ 0 ∨ bodies.size = 0) :
    physics_step sqrtA bodies dt gravity_y bounds rng = (bodies, rng) := by
  unfold physics_step
  rcases h with h | h
  · rw [if_pos h]
  · split_ifs <;> simp_all

/-- Witness for C9 at `dt = -1` on a one-body array. -/
theorem c9_witness :
    physics_step sqrtTab #[⟨10, 10, 0, 0, 0, 1, 1, 1, 0, 0, 0, 0, false⟩]
      (-1) 0 ⟨0, 100, 0, 100⟩ ⟨1⟩ =
    (#[⟨10, 10, 0, 0, 0, 1, 1, 1, 0, 0, 0, 0, false⟩], ⟨1⟩) :=
  c9_noop sqrtTab _ (-1) 0 ⟨0, 100, 0, 100⟩ ⟨1⟩ (Or.inl (by norm_num))

/-- C1 counterexample: a popped body (inv_mass 1, ay 1, dt 1, gravity 0) is
left with velocity 0 and y 10 by `physics_step`; the claim predicts velocity
advanced to 1 and position advanced to 11. -/
theorem c1_counterexample :
    ((physics_step sqrtTab #[⟨10, 10, 0, 0, 0, 1, 1, 1, 0, 0, 0, 0, true⟩]
        1 0 ⟨0, 100, 0, 100⟩ ⟨1⟩).1.getD 0 default).vy = 0 ∧
    ((physics_step sqrtTab #[⟨10, 10, 0, 0, 0, 1, 1, 1, 0, 0, 0, 0, true⟩]
        1 0 ⟨0, 100, 0, 100⟩ ⟨1⟩).1.getD 0 default).y = 10 ∧
    ¬(((physics_step sqrtTab #[⟨10, 10, 0, 0, 0, 1, 1, 1, 0, 0, 0, 0, true⟩]
        1 0 ⟨0, 100, 0, 100⟩ ⟨1⟩).1.getD 0 default).vy = 0 + (1 + 0) * 1 ∧
      ((physics_step sqrtTab #[⟨10, 10, 0, 0, 0, 1, 1, 1, 0, 0, 0, 0, true⟩]
        1 0 ⟨0, 100, 0, 100⟩ ⟨1⟩).1.getD 0 default).y = 10 + (0 + (1 + 0) * 1) * 1) := by
  norm_num [physics_step, integrate_body, collide_outer, collide_inner,
    Array.getD, (by decide : List.range 1 = [0])]

/-- C1 (amended): an eliminated (popped) body is NOT integrated by the
integration phase of `physics_step`: whenever it lies within the horizontal
walls, its position and velocity are left completely unchanged (only the
spawn cooldown may still decrement), for every dt. -/
theorem c1_popped_not_integrated (dt gravity_y : ℚ) (bounds : WorldBounds)
    (b : PhysicsBody)
    (hp : b.popped = true)
    (hlo : bounds.min_x ≤ b.x - b.radius)
    (hhi : b.x + b.radius ≤ bounds.max_x) :
    (integrate_body dt gravity_y bounds b).x = b.x ∧
    (integrate_body dt gravity_y bounds b).y = b.y ∧
    (integrate_body dt gravity_y bounds b).vx = b.vx ∧
    (integrate_body dt gravity_y bounds b).vy = b.vy := by
  have h2 : ¬(b.x - b.radius < bounds.min_x) := not_lt.mpr hlo
  have h3 : ¬(bounds.max_x < b.x + b.radius) := not_lt.mpr hhi
  simp only [integrate_body, hp]
  norm_num
  rw [if_neg h2, if_neg h3]
  split <;> simp

/-- Witness for C1 (amended) at a concrete popped in-bounds body. -/
theorem c1_witness :
    (integrate_body 1 0 ⟨0, 100, 0, 100⟩ ⟨10, 10, 2, 3, 0, 1, 1, 1, 0, 0, 0, 0, true⟩).x = 10 ∧
    (integrate_body 1 0 ⟨0, 100, 0, 100⟩ ⟨10, 10, 2, 3, 0, 1, 1, 1, 0, 0, 0, 0, true⟩).y = 10 ∧
    (integrate_body 1 0 ⟨0, 100, 0, 100⟩ ⟨10, 10, 2, 3, 0, 1, 1, 1, 0, 0, 0, 0, true⟩).vx = 2 ∧
    (integrate_body 1 0 ⟨0, 100, 0, 100⟩ ⟨10, 10, 2, 3, 0, 1, 1, 1, 0, 0, 0, 0, true⟩).vy = 3 := by
  exact c1_popped_not_integrated 1 0 ⟨0, 100, 0, 100⟩
    ⟨10, 10, 2, 3, 0, 1, 1, 1, 0, 0, 0, 0, true⟩ (by decide) (by norm_num) (by norm_num)

/-- C7: a respawned body lies horizontally within `[min_x+r, max_x-r]`
(inclusive) whenever its radius is at most half the arena width, lies at least
the base offset 40 below `max_y` (y grows downward), has its spawn cooldown
reset to `SPAWN_COOLDOWN_FRAMES`, and has its popped flag cleared. -/
theorem c7_respawn_bounds (groups : List BubbleGroupConfig) (bounds : WorldBounds)
    (b : PhysicsBody) (rng : SimpleRng)
    (hr0 : 0 ≤ b.radius)
    (hrw : b.radius ≤ (bounds.max_x - bounds.min_x) / 2) :
    bounds.min_x + b.radius ≤ (bubble_respawn_body groups bounds b rng).1.x ∧
    (bubble_respawn_body groups bounds b rng).1.x ≤ bounds.max_x - b.radius ∧
    bounds.max_y + 40 ≤ (bubble_respawn_body groups bounds b rng).1.y ∧
    (bubble_respawn_body groups bounds b rng).1.spawn_cooldown = SPAWN_COOLDOWN_FRAMES ∧
    (bubble_respawn_body groups bounds b rng).1.popped = false := by
  have h1 := rng_next_float01_nonneg rng
  have h2 := rng_next_float01_lt_one rng
  have h3 := rng_next_float01_nonneg (rng_next_float01 rng).2
  have hw : (0:ℚ) ≤ (bounds.max_x - b.radius) - (bounds.min_x + b.radius) := by linarith
  simp only [bubble_respawn_body]
  refine ⟨?_, ?_, ?_, by trivial, by trivial⟩
  · nlinarith [mul_nonneg h1 hw]
  · nlinarith [mul_le_mul_of_nonneg_right (le_of_lt h2) hw]
  · nlinarith

/-- Witness for C7 at a concrete body of radius 5 in the 128x64 arena. -/
theorem c7_witness :
    (0:ℚ) + 5 ≤ (bubble_respawn_body [⟨22, 3, 60, 4/5, 1⟩] ⟨0, 127, 0, 63⟩
        ⟨64, 70, 0, -4, 0, 0, 5, 1, 1/20, 0, 0, 1/10, true⟩ ⟨1⟩).1.x ∧
    (bubble_respawn_body [⟨22, 3, 60, 4/5, 1⟩] ⟨0, 127, 0, 63⟩
        ⟨64, 70, 0, -4, 0, 0, 5, 1, 1/20, 0, 0, 1/10, true⟩ ⟨1⟩).1.x ≤ 127 - 5 ∧
    (63:ℚ) + 40 ≤ (bubble_respawn_body [⟨22, 3, 60, 4/5, 1⟩] ⟨0, 127, 0, 63⟩
        ⟨64, 70, 0, -4, 0, 0, 5, 1, 1/20, 0, 0, 1/10, true⟩ ⟨1⟩).1.y ∧
    (bubble_respawn_body [⟨22, 3, 60, 4/5, 1⟩] ⟨0, 127, 0, 63⟩
        ⟨64, 70, 0, -4, 0, 0, 5, 1, 1/20, 0, 0, 1/10, true⟩ ⟨1⟩).1.spawn_cooldown =
      SPAWN_COOLDOWN_FRAMES ∧
    (bubble_respawn_body [⟨22, 3, 60, 4/5, 1⟩] ⟨0, 127, 0, 63⟩
        ⟨64, 70, 0, -4, 0, 0, 5, 1, 1/20, 0, 0, 1/10, true⟩ ⟨1⟩).1.popped = false := by
  exact c7_respawn_bounds [⟨22, 3, 60, 4/5, 1⟩] ⟨0, 127, 0, 63⟩
    ⟨64, 70, 0, -4, 0, 0, 5, 1, 1/20, 0, 0, 1/10, true⟩ ⟨1⟩ (by norm_num) (by norm_num)

/-- C3 counterexample: the body at `(64, -25)` with radius 5 in the arena with
`min_y = 0`, `max_y = 63` satisfies `y + r = -20 = min_y - 20`, so the strict
off-top test leaves it unrespawned: after one lifecycle pass its y is still
-25, not ≥ `max_y`. -/
theorem c3_counterexample :
    ((bubble_lifecycle_pass [⟨22, 3, 60, 4/5, 1⟩] ⟨0, 127, 0, 63⟩
        (#[⟨64, -25, 0, -4, 0, 0, 5, 1, 1/20, 0, 0, 1/10, false⟩], ⟨1⟩)).1.getD 0
          default).y = -25 ∧
    ¬((63:ℚ) ≤ ((bubble_lifecycle_pass [⟨22, 3, 60, 4/5, 1⟩] ⟨0, 127, 0, 63⟩
        (#[⟨64, -25, 0, -4, 0, 0, 5, 1, 1/20, 0, 0, 1/10, false⟩], ⟨1⟩)).1.getD 0
          default).y) := by
  norm_num [bubble_lifecycle_pass, respawn_popped_loop, respawn_offtop_loop,
    Array.getD, (by decide : List.range 1 = [0])]

/-- C3 (amended): the off-top respawn test is strict — a body is respawned
only when `y + radius < min_y - 20`; at exactly the margin it is left in
place.  Any body strictly beyond the margin (with non-negative radius and its
popped flag clear) is respawned by one lifecycle pass to `y ≥ max_y`. -/
theorem c3_amended (groups : List BubbleGroupConfig) (bounds : WorldBounds)
    (b : PhysicsBody) (rng : SimpleRng)
    (hp : b.popped = false)
    (hoff : b.y + b.radius < bounds.min_y - 20)
    (hr : 0 ≤ b.radius) :
    bounds.max_y ≤
      ((bubble_lifecycle_pass groups bounds (#[b], rng)).1.getD 0 default).y := by
  have h1 := rng_next_float01_nonneg (rng_next_float01 rng).2
  have hpop : respawn_popped_loop groups bounds [0] (#[b], rng) = (#[b], rng) := by
    simp [respawn_popped_loop, Array.getD, hp]
  have hrange : List.range (#[b] : Array PhysicsBody).size = [0] := rfl
  unfold bubble_lifecycle_pass
  rw [hrange, hpop]
  have hget : (#[b] : Array PhysicsBody).getD 0 default = b := rfl
  simp only [respawn_offtop_loop, hget, if_pos hoff]
  have hget2 : ∀ v : PhysicsBody,
      ((#[b] : Array PhysicsBody).setD 0 v).getD 0 default = v := fun v => rfl
  rw [hget2]
  simp only [bubble_respawn_body]
  nlinarith [h1, hr]

/-- Witness for C3 (amended) at a concrete body strictly beyond the margin. -/
theorem c3_witness :
    (63:ℚ) ≤ ((bubble_lifecycle_pass [⟨22, 3, 60, 4/5, 1⟩] ⟨0, 127, 0, 63⟩
        (#[⟨64, -26, 0, -4, 0, 0, 5, 1, 1/20, 0, 0, 1/10, false⟩], ⟨1⟩)).1.getD 0
          default).y := by
  exact c3_amended [⟨22, 3, 60, 4/5, 1⟩] ⟨0, 127, 0, 63⟩
    ⟨64, -26, 0, -4, 0, 0, 5, 1, 1/20, 0, 0, 1/10, false⟩ ⟨1⟩ (by decide)
    (by norm_num) (by norm_num)

/-- Characterization of the main path: on a pair that passes every skip guard
(not popped, visible, out of cooldown, above the degenerate-distance guard,
overlapping with positive penetration, positive combined inverse mass),
`resolve_pair` reduces to `resolve_tail` applied at the square root of the
squared center distance. -/
theorem resolve_pair_main (sqrtA : ℚ → ℚ) (bounds : WorldBounds)
    (a b : PhysicsBody) (rng : SimpleRng)
    (hbp : b.popped = false)
    (hca : a.spawn_cooldown ≤ 0) (hcb : b.spawn_cooldown ≤ 0)
    (hdeg : 1/100000 < ph_len2 (b.x - a.x) (b.y - a.y))
    (hov : ph_len2 (b.x - a.x) (b.y - a.y) ≤
      (a.radius + b.radius) * (a.radius + b.radius))
    (hpen : sqrtA (ph_len2 (b.x - a.x) (b.y - a.y)) < a.radius + b.radius)
    (hinv : 0 < a.inv_mass + b.inv_mass) :
    resolve_pair sqrtA bounds true a b rng =
      resolve_tail (sqrtA (ph_len2 (b.x - a.x) (b.y - a.y))) a b rng := by
  have h3 : ¬(0 < a.spawn_cooldown ∨ 0 < b.spawn_cooldown) := by
    push_neg
    exact ⟨hca, hcb⟩
  have h4 : ¬(ph_len2 (b.x - a.x) (b.y - a.y) ≤ 1/100000) := not_le.mpr hdeg
  have h5 : ¬((a.radius + b.radius) * (a.radius + b.radius) <
      ph_len2 (b.x - a.x) (b.y - a.y)) := not_lt.mpr hov
  have h6 : ¬(a.radius + b.radius - sqrtA (ph_len2 (b.x - a.x) (b.y - a.y)) ≤ 0) := by
    push_neg
    linarith
  have h7 : ¬(a.inv_mass + b.inv_mass ≤ 0) := not_le.mpr hinv
  simp only [resolve_pair, resolve_core, resolve_tail, hbp, Bool.false_eq_true,
    if_false, Bool.true_eq_false, false_and, if_neg h3, if_neg h4, if_neg h5,
    if_neg h6, if_neg h7]

theorem resolve_tail_x1 (d : ℚ) (a b : PhysicsBody) (rng : SimpleRng) :
    (resolve_tail d a b rng).1.x =
      if 0 < a.inv_mass then
        a.x - (b.x - a.x) / d *
          (a.inv_mass / (a.inv_mass + b.inv_mass) * (a.radius + b.radius - d))
      else a.x := by
  unfold resolve_tail
  dsimp only
  split_ifs <;> rfl

theorem resolve_tail_y1 (d : ℚ) (a b : PhysicsBody) (rng : SimpleRng) :
    (resolve_tail d a b rng).1.y =
      if 0 < a.inv_mass then
        a.y - (b.y - a.y) / d *
          (a.inv_mass / (a.inv_mass + b.inv_mass) * (a.radius + b.radius - d))
      else a.y := by
  unfold resolve_tail
  dsimp only
  split_ifs <;> rfl

theorem resolve_tail_x2 (d : ℚ) (a b : PhysicsBody) (rng : SimpleRng) :
    (resolve_tail d a b rng).2.1.x =
      if 0 < b.inv_mass then
        b.x + (b.x - a.x) / d *
          (b.inv_mass / (a.inv_mass + b.inv_mass) * (a.radius + b.radius - d))
      else b.x := by
  unfold resolve_tail
  dsimp only
  split_ifs <;> rfl

theorem resolve_tail_y2 (d : ℚ) (a b : PhysicsBody) (rng : SimpleRng) :
    (resolve_tail d a b rng).2.1.y =
      if 0 < b.inv_mass then
        b.y + (b.y - a.y) / d *
          (b.inv_mass / (a.inv_mass + b.inv_mass) * (a.radius + b.radius - d))
      else b.y := by
  unfold resolve_tail
  dsimp only
  split_ifs <;> rfl

theorem resolve_tail_rng (d : ℚ) (a b : PhysicsBody) (rng : SimpleRng) :
    (resolve_tail d a b rng).2.2 =
      if 0 < vel_norm_of d a b then rng
      else if 0 < avg_pop_of a b then (rng_next_float01 rng).2
      else rng := by
  unfold resolve_tail vel_norm_of avg_pop_of
  dsimp only
  split_ifs <;> rfl

theorem resolve_tail_popped1 (d : ℚ) (a b : PhysicsBody) (rng : SimpleRng) :
    (resolve_tail d a b rng).1.popped =
      if 0 < vel_norm_of d a b then a.popped
      else if 0 < avg_pop_of a b then
        if (rng_next_float01 rng).1 < avg_pop_of a b then
          if a.radius ≤ b.radius then true else a.popped
        else a.popped
      else a.popped := by
  unfold resolve_tail vel_norm_of avg_pop_of
  dsimp only
  split_ifs <;> rfl

theorem resolve_tail_popped2 (d : ℚ) (a b : PhysicsBody) (rng : SimpleRng) :
    (resolve_tail d a b rng).2.1.popped =
      if 0 < vel_norm_of d a b then b.popped
      else if 0 < avg_pop_of a b then
        if (rng_next_float01 rng).1 < avg_pop_of a b then
          if a.radius ≤ b.radius then b.popped else true
        else b.popped
      else b.popped := by
  unfold resolve_tail vel_norm_of avg_pop_of
  dsimp only
  split_ifs <;> rfl

theorem resolve_tail_vx1 (d : ℚ) (a b : PhysicsBody) (rng : SimpleRng) :
    (resolve_tail d a b rng).1.vx =
      if 0 < vel_norm_of d a b then a.vx
      else if 0 < a.inv_mass then
        a.vx - impulse_of d a b * ((b.x - a.x) / d) * a.inv_mass
      else a.vx := by
  unfold resolve_tail vel_norm_of impulse_of
  dsimp only
  split_ifs <;> rfl

theorem resolve_tail_vy1 (d : ℚ) (a b : PhysicsBody) (rng : SimpleRng) :
    (resolve_tail d a b rng).1.vy =
      if 0 < vel_norm_of d a b then a.vy
      else if 0 < a.inv_mass then
        a.vy - impulse_of d a b * ((b.y - a.y) / d) * a.inv_mass
      else a.vy := by
  unfold resolve_tail vel_norm_of impulse_of
  dsimp only
  split_ifs <;> rfl

theorem resolve_tail_vx2 (d : ℚ) (a b : PhysicsBody) (rng : SimpleRng) :
    (resolve_tail d a b rng).2.1.vx =
      if 0 < vel_norm_of d a b then b.vx
      else if 0 < b.inv_mass then
        b.vx + impulse_of d a b * ((b.x - a.x) / d) * b.inv_mass
      else b.vx := by
  unfold resolve_tail vel_norm_of impulse_of
  dsimp only
  split_ifs <;> rfl

theorem resolve_tail_vy2 (d : ℚ) (a b : PhysicsBody) (rng : SimpleRng) :
    (resolve_tail d a b rng).2.1.vy =
      if 0 < vel_norm_of d a b then b.vy
      else if 0 < b.inv_mass then
        b.vy + impulse_of d a b * ((b.y - a.y) / d) * b.inv_mass
      else b.vy := by
  unfold resolve_tail vel_norm_of impulse_of
  dsimp only
  split_ifs <;> rfl

/-- C4: for an overlapping pair above the degenerate-distance guard with
positive combined inverse mass, a single resolution pass displaces the bodies
along the collision normal in proportion to their inverse-mass shares so that
the squared center distance afterwards equals, hence is at least, the squared
sum of radii: penetration is fully resolved in one pass. -/
theorem c4_positional_correction (sqrtA : ℚ → ℚ) (bounds : WorldBounds)
    (a b : PhysicsBody) (rng : SimpleRng)
    (hbp : b.popped = false)
    (hca : a.spawn_cooldown ≤ 0) (hcb : b.spawn_cooldown ≤ 0)
    (hdeg : 1/100000 < ph_len2 (b.x - a.x) (b.y - a.y))
    (hov : ph_len2 (b.x - a.x) (b.y - a.y) ≤
      (a.radius + b.radius) * (a.radius + b.radius))
    (hpen : sqrtA (ph_len2 (b.x - a.x) (b.y - a.y)) < a.radius + b.radius)
    (hsq : sqrtA (ph_len2 (b.x - a.x) (b.y - a.y)) *
      sqrtA (ph_len2 (b.x - a.x) (b.y - a.y)) = ph_len2 (b.x - a.x) (b.y - a.y))
    (hpos : 0 < sqrtA (ph_len2 (b.x - a.x) (b.y - a.y)))
    (hinv : 0 < a.inv_mass + b.inv_mass)
    (hma : 0 ≤ a.inv_mass) (hmb : 0 ≤ b.inv_mass) :
    (a.radius + b.radius) * (a.radius + b.radius) ≤
      ph_len2 ((resolve_pair sqrtA bounds true a b rng).2.1.x -
               (resolve_pair sqrtA bounds true a b rng).1.x)
              ((resolve_pair sqrtA bounds true a b rng).2.1.y -
               (resolve_pair sqrtA bounds true a b rng).1.y) := by
  rw [resolve_pair_main sqrtA bounds a b rng hbp hca hcb hdeg hov hpen hinv,
      resolve_tail_x1, resolve_tail_y1, resolve_tail_x2, resolve_tail_y2]
  set d := sqrtA (ph_len2 (b.x - a.x) (b.y - a.y)) with hd
  have hq : (b.x - a.x) * (b.x - a.x) + (b.y - a.y) * (b.y - a.y) = d * d := by
    simp only [ph_len2] at hsq
    linarith
  have hd0 : d ≠ 0 := ne_of_gt hpos
  have hs0 : a.inv_mass + b.inv_mass ≠ 0 := ne_of_gt hinv
  have e3 : ph_len2 ((b.x - a.x) * ((a.radius + b.radius) / d))
      ((b.y - a.y) * ((a.radius + b.radius) / d)) =
      (a.radius + b.radius) * (a.radius + b.radius) := by
    simp only [ph_len2]
    field_simp
    linear_combination ((a.radius + b.radius) ^ 2) * hq
  split_ifs with hia hib hib2
  · have e1 : b.x + (b.x - a.x) / d *
        (b.inv_mass / (a.inv_mass + b.inv_mass) * (a.radius + b.radius - d)) -
        (a.x - (b.x - a.x) / d *
          (a.inv_mass / (a.inv_mass + b.inv_mass) * (a.radius + b.radius - d))) =
        (b.x - a.x) * ((a.radius + b.radius) / d) := by
      field_simp
      ring
    have e2 : b.y + (b.y - a.y) / d *
        (b.inv_mass / (a.inv_mass + b.inv_mass) * (a.radius + b.radius - d)) -
        (a.y - (b.y - a.y) / d *
          (a.inv_mass / (a.inv_mass + b.inv_mass) * (a.radius + b.radius - d))) =
        (b.y - a.y) * ((a.radius + b.radius) / d) := by
      field_simp
      ring
    rw [e1, e2, e3]
  · have ha0 : a.inv_mass = 0 := le_antisymm (not_lt.mp hib) hma
    have e1 : b.x + (b.x - a.x) / d *
        (b.inv_mass / (a.inv_mass + b.inv_mass) * (a.radius + b.radius - d)) - a.x =
        (b.x - a.x) * ((a.radius + b.radius) / d) := by
      rw [ha0]
      have hbne : b.inv_mass ≠ 0 := ne_of_gt hia
      field_simp
      ring
    have e2 : b.y + (b.y - a.y) / d *
        (b.inv_mass / (a.inv_mass + b.inv_mass) * (a.radius + b.radius - d)) - a.y =
        (b.y - a.y) * ((a.radius + b.radius) / d) := by
      rw [ha0]
      have hbne : b.inv_mass ≠ 0 := ne_of_gt hia
      field_simp
      ring
    rw [e1, e2, e3]
  · have hb0 : b.inv_mass = 0 := le_antisymm (not_lt.mp hia) hmb
    have e1 : b.x - (a.x - (b.x - a.x) / d *
        (a.inv_mass / (a.inv_mass + b.inv_mass) * (a.radius + b.radius - d))) =
        (b.x - a.x) * ((a.radius + b.radius) / d) := by
      rw [hb0]
      have hane : a.inv_mass ≠ 0 := ne_of_gt hib2
      field_simp
      ring
    have e2 : b.y - (a.y - (b.y - a.y) / d *
        (a.inv_mass / (a.inv_mass + b.inv_mass) * (a.radius + b.radius - d))) =
        (b.y - a.y) * ((a.radius + b.radius) / d) := by
      rw [hb0]
      have hane : a.inv_mass ≠ 0 := ne_of_gt hib2
      field_simp
      ring
    rw [e1, e2, e3]
  · exfalso
    have h1 := not_lt.mp hia
    have h2 := not_lt.mp hib2
    linarith

/-- C5: for a pair resolved on the main path with combined restitution
(arithmetic mean) below 1, the magnitude of the post-collision relative
velocity along the collision normal (stated against the unnormalized normal
`(dx, dy)`, i.e. the normal scaled by the positive distance) does not exceed
the pre-collision magnitude. -/
theorem c5_energy_nonincrease (sqrtA : ℚ → ℚ) (bounds : WorldBounds)
    (a b : PhysicsBody) (rng : SimpleRng)
    (hbp : b.popped = false)
    (hca : a.spawn_cooldown ≤ 0) (hcb : b.spawn_cooldown ≤ 0)
    (hdeg : 1/100000 < ph_len2 (b.x - a.x) (b.y - a.y))
    (hov : ph_len2 (b.x - a.x) (b.y - a.y) ≤
      (a.radius + b.radius) * (a.radius + b.radius))
    (hpen : sqrtA (ph_len2 (b.x - a.x) (b.y - a.y)) < a.radius + b.radius)
    (hsq : sqrtA (ph_len2 (b.x - a.x) (b.y - a.y)) *
      sqrtA (ph_len2 (b.x - a.x) (b.y - a.y)) = ph_len2 (b.x - a.x) (b.y - a.y))
    (hpos : 0 < sqrtA (ph_len2 (b.x - a.x) (b.y - a.y)))
    (hinv : 0 < a.inv_mass + b.inv_mass)
    (hma : 0 ≤ a.inv_mass) (hmb : 0 ≤ b.inv_mass)
    (hea : 0 ≤ a.restitution) (heb : 0 ≤ b.restitution)
    (he : (a.restitution + b.restitution) * (1/2) < 1) :
    |((resolve_pair sqrtA bounds true a b rng).2.1.vx -
      (resolve_pair sqrtA bounds true a b rng).1.vx) * (b.x - a.x) +
     ((resolve_pair sqrtA bounds true a b rng).2.1.vy -
      (resolve_pair sqrtA bounds true a b rng).1.vy) * (b.y - a.y)| ≤
    |(b.vx - a.vx) * (b.x - a.x) + (b.vy - a.vy) * (b.y - a.y)| := by
  rw [resolve_pair_main sqrtA bounds a b rng hbp hca hcb hdeg hov hpen hinv,
      resolve_tail_vx1, resolve_tail_vy1, resolve_tail_vx2, resolve_tail_vy2]
  set d := sqrtA (ph_len2 (b.x - a.x) (b.y - a.y)) with hd
  have hq : (b.x - a.x) * (b.x - a.x) + (b.y - a.y) * (b.y - a.y) = d * d := by
    simp only [ph_len2] at hsq
    linarith
  have hd0 : d ≠ 0 := ne_of_gt hpos
  have hs0 : a.inv_mass + b.inv_mass ≠ 0 := ne_of_gt hinv
  have he0 : 0 ≤ (a.restitution + b.restitution) * (1/2) := by linarith
  have hJd : impulse_of d a b * (a.inv_mass + b.inv_mass) =
      -(1 + (a.restitution + b.restitution) * (1/2)) * vel_norm_of d a b := by
    unfold impulse_of
    field_simp
    ring
  have hVd : vel_norm_of d a b * d =
      (b.vx - a.vx) * (b.x - a.x) + (b.vy - a.vy) * (b.y - a.y) := by
    unfold vel_norm_of
    field_simp
  have habs : ∀ B : ℚ, |(-((a.restitution + b.restitution) * (1/2))) * B| ≤ |B| := by
    intro B
    rw [abs_mul, abs_neg, abs_of_nonneg he0]
    calc (a.restitution + b.restitution) * (1/2) * |B| ≤ 1 * |B| :=
          mul_le_mul_of_nonneg_right (le_of_lt he) (abs_nonneg B)
      _ = |B| := one_mul _
  split_ifs with hv hbm ham ham2
  · exact le_rfl
  · -- both masses positive
    have eA : (b.vx + impulse_of d a b * ((b.x - a.x) / d) * b.inv_mass -
        (a.vx - impulse_of d a b * ((b.x - a.x) / d) * a.inv_mass)) * (b.x - a.x) +
        (b.vy + impulse_of d a b * ((b.y - a.y) / d) * b.inv_mass -
        (a.vy - impulse_of d a b * ((b.y - a.y) / d) * a.inv_mass)) * (b.y - a.y) =
        (-((a.restitution + b.restitution) * (1/2))) *
          ((b.vx - a.vx) * (b.x - a.x) + (b.vy - a.vy) * (b.y - a.y)) := by
      field_simp
      linear_combination (2 * impulse_of d a b * (a.inv_mass + b.inv_mass)) * hq +
        (2 * d ^ 2) * hJd +
        (-2 * (1 + (a.restitution + b.restitution) * (1/2)) * d) * hVd
    rw [eA]
    exact habs _
  · -- only b movable
    have ha0 : a.inv_mass = 0 := le_antisymm (not_lt.mp ham) hma
    have eA : (b.vx + impulse_of d a b * ((b.x - a.x) / d) * b.inv_mass - a.vx) *
          (b.x - a.x) +
        (b.vy + impulse_of d a b * ((b.y - a.y) / d) * b.inv_mass - a.vy) *
          (b.y - a.y) =
        (-((a.restitution + b.restitution) * (1/2))) *
          ((b.vx - a.vx) * (b.x - a.x) + (b.vy - a.vy) * (b.y - a.y)) := by
      field_simp
      linear_combination (2 * impulse_of d a b * b.inv_mass) * hq +
        (2 * d ^ 2) * hJd +
        (-2 * (1 + (a.restitution + b.restitution) * (1/2)) * d) * hVd +
        (-2 * (d ^ 2) * impulse_of d a b) * ha0
    rw [eA]
    exact habs _
  · -- only a movable
    have hb0 : b.inv_mass = 0 := le_antisymm (not_lt.mp hbm) hmb
    have eA : (b.vx - (a.vx - impulse_of d a b * ((b.x - a.x) / d) * a.inv_mass)) *
          (b.x - a.x) +
        (b.vy - (a.vy - impulse_of d a b * ((b.y - a.y) / d) * a.inv_mass)) *
          (b.y - a.y) =
        (-((a.restitution + b.restitution) * (1/2))) *
          ((b.vx - a.vx) * (b.x - a.x) + (b.vy - a.vy) * (b.y - a.y)) := by
      field_simp
      linear_combination (2 * impulse_of d a b * a.inv_mass) * hq +
        (2 * d ^ 2) * hJd +
        (-2 * (1 + (a.restitution + b.restitution) * (1/2)) * d) * hVd +
        (-2 * (d ^ 2) * impulse_of d a b) * hb0
    rw [eA]
    exact habs _
  · exfalso
    have h1 := not_lt.mp hbm
    have h2 := not_lt.mp ham2
    linarith

/-- C6: when both bodies have pop chance 1, a guaranteed overlap resolution
(reaching the pop step, i.e. not separating) eliminates exactly the
smaller-radius body for every RNG state — the draw is always below 1 — and on
an exact radius tie the first body `a` is eliminated (the comparison is `≤`);
the other body of the pair stays unpopped. -/
theorem c6_pop_smaller (sqrtA : ℚ → ℚ) (bounds : WorldBounds)
    (a b : PhysicsBody) (rng : SimpleRng)
    (hap : a.popped = false) (hbp : b.popped = false)
    (hca : a.spawn_cooldown ≤ 0) (hcb : b.spawn_cooldown ≤ 0)
    (hdeg : 1/100000 < ph_len2 (b.x - a.x) (b.y - a.y))
    (hov : ph_len2 (b.x - a.x) (b.y - a.y) ≤
      (a.radius + b.radius) * (a.radius + b.radius))
    (hpen : sqrtA (ph_len2 (b.x - a.x) (b.y - a.y)) < a.radius + b.radius)
    (hpos : 0 < sqrtA (ph_len2 (b.x - a.x) (b.y - a.y)))
    (hinv : 0 < a.inv_mass + b.inv_mass)
    (hpa : a.pop_chance = 1) (hpb : b.pop_chance = 1)
    (hvel : (b.vx - a.vx) * (b.x - a.x) + (b.vy - a.vy) * (b.y - a.y) ≤ 0) :
    (if a.radius ≤ b.radius then
      (resolve_pair sqrtA bounds true a b rng).1.popped = true ∧
      (resolve_pair sqrtA bounds true a b rng).2.1.popped = false
     else
      (resolve_pair sqrtA bounds true a b rng).2.1.popped = true ∧
      (resolve_pair sqrtA bounds true a b rng).1.popped = false) := by
  rw [resolve_pair_main sqrtA bounds a b rng hbp hca hcb hdeg hov hpen hinv,
      resolve_tail_popped1, resolve_tail_popped2]
  set d := sqrtA (ph_len2 (b.x - a.x) (b.y - a.y)) with hd
  have hVd : vel_norm_of d a b * d =
      (b.vx - a.vx) * (b.x - a.x) + (b.vy - a.vy) * (b.y - a.y) := by
    unfold vel_norm_of
    field_simp
  have hv : ¬(0 < vel_norm_of d a b) := by
    intro hcon
    nlinarith [mul_pos hcon hpos]
  have havg : avg_pop_of a b = 1 := by
    unfold avg_pop_of
    rw [hpa, hpb]
    norm_num
  have h1 : 0 < avg_pop_of a b := by
    rw [havg]
    norm_num
  have h2 : (rng_next_float01 rng).1 < avg_pop_of a b := by
    rw [havg]
    exact rng_next_float01_lt_one rng
  rw [if_neg hv, if_neg hv, if_pos h1, if_pos h1, if_pos h2, if_pos h2]
  split_ifs with hr
  · exact ⟨rfl, hbp⟩
  · exact ⟨rfl, hap⟩

/-- C2 (amended): a colliding pair that reaches the pop step (relative normal
velocity not positive after correction) advances the random stream by exactly
one draw when its average pop chance is positive — regardless of whether
elimination occurs — and by no draw at all when the average pop chance is 0.
-/
theorem c2_random_draw (sqrtA : ℚ → ℚ) (bounds : WorldBounds)
    (a b : PhysicsBody) (rng : SimpleRng)
    (hbp : b.popped = false)
    (hca : a.spawn_cooldown ≤ 0) (hcb : b.spawn_cooldown ≤ 0)
    (hdeg : 1/100000 < ph_len2 (b.x - a.x) (b.y - a.y))
    (hov : ph_len2 (b.x - a.x) (b.y - a.y) ≤
      (a.radius + b.radius) * (a.radius + b.radius))
    (hpen : sqrtA (ph_len2 (b.x - a.x) (b.y - a.y)) < a.radius + b.radius)
    (hpos : 0 < sqrtA (ph_len2 (b.x - a.x) (b.y - a.y)))
    (hinv : 0 < a.inv_mass + b.inv_mass)
    (hvel : (b.vx - a.vx) * (b.x - a.x) + (b.vy - a.vy) * (b.y - a.y) ≤ 0) :
    (resolve_pair sqrtA bounds true a b rng).2.2 =
      (if 0 < (a.pop_chance + b.pop_chance) * (1/2) then rng_next rng else rng) := by
  rw [resolve_pair_main sqrtA bounds a b rng hbp hca hcb hdeg hov hpen hinv,
      resolve_tail_rng]
  set d := sqrtA (ph_len2 (b.x - a.x) (b.y - a.y)) with hd
  have hVd : vel_norm_of d a b * d =
      (b.vx - a.vx) * (b.x - a.x) + (b.vy - a.vy) * (b.y - a.y) := by
    unfold vel_norm_of
    field_simp
  have hv : ¬(0 < vel_norm_of d a b) := by
    intro hcon
    nlinarith [mul_pos hcon hpos]
  rw [if_neg hv]
  unfold avg_pop_of
  split_ifs <;> rfl

/-- C2 counterexample: a fully processed colliding pair whose pop chances are
both 0 leaves the random stream untouched, while the claim says it must
consume one value (`rng_next` provably changes the state `1`). -/
theorem c2_counterexample :
    (resolve_pair sqrtTab ⟨0, 127, 0, 63⟩ true
        ⟨10, 10, 0, 0, 0, 0, 3, 1, 1/2, 0, 0, 0, false⟩
        ⟨13, 14, 0, 0, 0, 0, 3, 1, 1/2, 0, 0, 0, false⟩ ⟨1⟩).2.2 = ⟨1⟩ ∧
    rng_next ⟨1⟩ ≠ ⟨1⟩ := by
  constructor
  · norm_num [resolve_pair, resolve_core, sqrtTab, ph_len2, body_is_visible_vertical]
  · decide

/-- Witness for C2 (amended) at a concrete overlapping pair with pop chance 0
on both bodies: the stream is left unchanged. -/
theorem c2_witness :
    (resolve_pair sqrtTab ⟨0, 127, 0, 63⟩ true
        ⟨10, 10, 0, 0, 0, 0, 3, 1, 1/2, 0, 0, 0, false⟩
        ⟨13, 14, 0, 0, 0, 0, 3, 1, 1/2, 0, 0, 0, false⟩ ⟨1⟩).2.2 =
      (if 0 < ((0:ℚ) + 0) * (1/2) then rng_next ⟨1⟩ else ⟨1⟩) := by
  exact c2_random_draw sqrtTab ⟨0, 127, 0, 63⟩
    ⟨10, 10, 0, 0, 0, 0, 3, 1, 1/2, 0, 0, 0, false⟩
    ⟨13, 14, 0, 0, 0, 0, 3, 1, 1/2, 0, 0, 0, false⟩ ⟨1⟩ (by decide) (by decide)
    (by decide) (by norm_num [ph_len2]) (by norm_num [ph_len2])
    (by norm_num [ph_len2, sqrtTab]) (by norm_num [ph_len2, sqrtTab])
    (by norm_num) (by norm_num)

/-- Witness for C4 at a concrete overlapping pair (centers 5 apart, radii 3
and 3). -/
theorem c4_witness :
    ((3:ℚ) + 3) * (3 + 3) ≤
      ph_len2 ((resolve_pair sqrtTab ⟨0, 127, 0, 63⟩ true
          ⟨10, 10, 0, 0, 0, 0, 3, 1, 1/2, 0, 0, 0, false⟩
          ⟨13, 14, 0, 0, 0, 0, 3, 1, 1/2, 0, 0, 0, false⟩ ⟨1⟩).2.1.x -
        (resolve_pair sqrtTab ⟨0, 127, 0, 63⟩ true
          ⟨10, 10, 0, 0, 0, 0, 3, 1, 1/2, 0, 0, 0, false⟩
          ⟨13, 14, 0, 0, 0, 0, 3, 1, 1/2, 0, 0, 0, false⟩ ⟨1⟩).1.x)
        ((resolve_pair sqrtTab ⟨0, 127, 0, 63⟩ true
          ⟨10, 10, 0, 0, 0, 0, 3, 1, 1/2, 0, 0, 0, false⟩
          ⟨13, 14, 0, 0, 0, 0, 3, 1, 1/2, 0, 0, 0, false⟩ ⟨1⟩).2.1.y -
        (resolve_pair sqrtTab ⟨0, 127, 0, 63⟩ true
          ⟨10, 10, 0, 0, 0, 0, 3, 1, 1/2, 0, 0, 0, false⟩
          ⟨13, 14, 0, 0, 0, 0, 3, 1, 1/2, 0, 0, 0, false⟩ ⟨1⟩).1.y) := by
  exact c4_positional_correction sqrtTab ⟨0, 127, 0, 63⟩
    ⟨10, 10, 0, 0, 0, 0, 3, 1, 1/2, 0, 0, 0, false⟩
    ⟨13, 14, 0, 0, 0, 0, 3, 1, 1/2, 0, 0, 0, false⟩ ⟨1⟩ (by decide) (by decide)
    (by decide) (by norm_num [ph_len2]) (by norm_num [ph_len2])
    (by norm_num [ph_len2, sqrtTab]) (by norm_num [ph_len2, sqrtTab])
    (by norm_num [ph_len2, sqrtTab]) (by norm_num) (by norm_num) (by norm_num)

/-- Witness for C5 at a concrete approaching pair with mean restitution 1/2.
-/
theorem c5_witness :
    |((resolve_pair sqrtTab ⟨0, 127, 0, 63⟩ true
        ⟨10, 10, 1, 1, 0, 0, 3, 1, 1/2, 0, 0, 0, false⟩
        ⟨13, 14, -1, -1, 0, 0, 3, 1, 1/2, 0, 0, 0, false⟩ ⟨1⟩).2.1.vx -
      (resolve_pair sqrtTab ⟨0, 127, 0, 63⟩ true
        ⟨10, 10, 1, 1, 0, 0, 3, 1, 1/2, 0, 0, 0, false⟩
        ⟨13, 14, -1, -1, 0, 0, 3, 1, 1/2, 0, 0, 0, false⟩ ⟨1⟩).1.vx) * (13 - 10) +
     ((resolve_pair sqrtTab ⟨0, 127, 0, 63⟩ true
        ⟨10, 10, 1, 1, 0, 0, 3, 1, 1/2, 0, 0, 0, false⟩
        ⟨13, 14, -1, -1, 0, 0, 3, 1, 1/2, 0, 0, 0, false⟩ ⟨1⟩).2.1.vy -
      (resolve_pair sqrtTab ⟨0, 127, 0, 63⟩ true
        ⟨10, 10, 1, 1, 0, 0, 3, 1, 1/2, 0, 0, 0, false⟩
        ⟨13, 14, -1, -1, 0, 0, 3, 1, 1/2, 0, 0, 0, false⟩ ⟨1⟩).1.vy) * (14 - 10)| ≤
    |((-1:ℚ) - 1) * (13 - 10) + ((-1:ℚ) - 1) * (14 - 10)| := by
  exact c5_energy_nonincrease sqrtTab ⟨0, 127, 0, 63⟩
    ⟨10, 10, 1, 1, 0, 0, 3, 1, 1/2, 0, 0, 0, false⟩
    ⟨13, 14, -1, -1, 0, 0, 3, 1, 1/2, 0, 0, 0, false⟩ ⟨1⟩ (by decide) (by decide)
    (by decide) (by norm_num [ph_len2]) (by norm_num [ph_len2])
    (by norm_num [ph_len2, sqrtTab]) (by norm_num [ph_len2, sqrtTab])
    (by norm_num [ph_len2, sqrtTab]) (by norm_num) (by norm_num) (by norm_num)
    (by norm_num) (by norm_num) (by norm_num)

/-- Witness for C6 at a concrete overlapping pair with pop chance 1 on both
bodies and equal radii (tie broken toward the first body). -/
theorem c6_witness :
    (if (3:ℚ) ≤ 3 then
      (resolve_pair sqrtTab ⟨0, 127, 0, 63⟩ true
        ⟨10, 10, 0, 0, 0, 0, 3, 1, 1/2, 0, 0, 1, false⟩
        ⟨13, 14, 0, 0, 0, 0, 3, 1, 1/2, 0, 0, 1, false⟩ ⟨1⟩).1.popped = true ∧
      (resolve_pair sqrtTab ⟨0, 127, 0, 63⟩ true
        ⟨10, 10, 0, 0, 0, 0, 3, 1, 1/2, 0, 0, 1, false⟩
        ⟨13, 14, 0, 0, 0, 0, 3, 1, 1/2, 0, 0, 1, false⟩ ⟨1⟩).2.1.popped = false
     else
      (resolve_pair sqrtTab ⟨0, 127, 0, 63⟩ true
        ⟨10, 10, 0, 0, 0, 0, 3, 1, 1/2, 0, 0, 1, false⟩
        ⟨13, 14, 0, 0, 0, 0, 3, 1, 1/2, 0, 0, 1, false⟩ ⟨1⟩).2.1.popped = true ∧
      (resolve_pair sqrtTab ⟨0, 127, 0, 63⟩ true
        ⟨10, 10, 0, 0, 0, 0, 3, 1, 1/2, 0, 0, 1, false⟩
        ⟨13, 14, 0, 0, 0, 0, 3, 1, 1/2, 0, 0, 1, false⟩ ⟨1⟩).1.popped = false) := by
  exact c6_pop_smaller sqrtTab ⟨0, 127, 0, 63⟩
    ⟨10, 10, 0, 0, 0, 0, 3, 1, 1/2, 0, 0, 1, false⟩
    ⟨13, 14, 0, 0, 0, 0, 3, 1, 1/2, 0, 0, 1, false⟩ ⟨1⟩ (by decide) (by decide)
    (by decide) (by decide) (by norm_num [ph_len2]) (by norm_num [ph_len2])
    (by norm_num [ph_len2, sqrtTab]) (by norm_num [ph_len2, sqrtTab])
    (by norm_num) (by norm_num) (by norm_num) (by norm_num)

theorem frame_preserved_refl (b : PhysicsBody) : frame_preserved b b :=
  ⟨rfl, rfl, rfl, rfl, rfl, fun h => h⟩

theorem frame_preserved_trans {b1 b2 b3 : PhysicsBody}
    (h1 : frame_preserved b1 b2) (h2 : frame_preserved b2 b3) :
    frame_preserved b1 b3 := by
  obtain ⟨a1, a2, a3, a4, a5, a6⟩ := h1
  obtain ⟨c1, c2, c3, c4, c5, c6⟩ := h2
  exact ⟨c1.trans a1, c2.trans a2, c3.trans a3, c4.trans a4, c5.trans a5,
    fun h => c6 (a6 h)⟩

theorem integrate_body_frame (dt gravity_y : ℚ) (bounds : WorldBounds)
    (b : PhysicsBody) : frame_preserved b (integrate_body dt gravity_y bounds b) := by
  unfold integrate_body frame_preserved
  dsimp only
  split_ifs <;> simp_all

set_option maxHeartbeats 1000000 in
theorem resolve_core_frame1 (sqrtA : ℚ → ℚ) (dx dy dist2 : ℚ)
    (a b : PhysicsBody) (rng : SimpleRng) :
    frame_preserved a (resolve_core sqrtA dx dy dist2 a b rng).1 := by
  unfold frame_preserved
  refine ⟨?_, ?_, ?_, ?_, ?_, ?_⟩ <;>
    (unfold resolve_core; lift_lets;
     extract_lets r_sum dist penetration nx ny inv_ma inv_mb inv_sum move_a
       move_b a1 b1 rvx rvy vel_norm e j_impulse ix iy a2 b2 avg_pop u rng1;
     split_ifs <;>
       (try simp only [a1, b1, a2, b2]) <;>
       (try split_ifs) <;>
       first | trivial | (exact fun h => h) | (intro hh; trivial))

set_option maxHeartbeats 1000000 in
theorem resolve_core_frame2 (sqrtA : ℚ → ℚ) (dx dy dist2 : ℚ)
    (a b : PhysicsBody) (rng : SimpleRng) :
    frame_preserved b (resolve_core sqrtA dx dy dist2 a b rng).2.1 := by
  unfold frame_preserved
  refine ⟨?_, ?_, ?_, ?_, ?_, ?_⟩ <;>
    (unfold resolve_core; lift_lets;
     extract_lets r_sum dist penetration nx ny inv_ma inv_mb inv_sum move_a
       move_b a1 b1 rvx rvy vel_norm e j_impulse ix iy a2 b2 avg_pop u rng1;
     split_ifs <;>
       (try simp only [a1, b1, a2, b2]) <;>
       (try split_ifs) <;>
       first | trivial | (exact fun h => h) | (intro hh; trivial))

theorem resolve_pair_frame1 (sqrtA : ℚ → ℚ) (bounds : WorldBounds) (vis : Bool)
    (a b : PhysicsBody) (rng : SimpleRng) :
    frame_preserved a (resolve_pair sqrtA bounds vis a b rng).1 := by
  unfold resolve_pair
  dsimp only
  split_ifs <;> first
    | exact frame_preserved_refl a
    | apply resolve_core_frame1

theorem resolve_pair_frame2 (sqrtA : ℚ → ℚ) (bounds : WorldBounds) (vis : Bool)
    (a b : PhysicsBody) (rng : SimpleRng) :
    frame_preserved b (resolve_pair sqrtA bounds vis a b rng).2.1 := by
  unfold resolve_pair
  dsimp only
  split_ifs <;> first
    | exact frame_preserved_refl b
    | apply resolve_core_frame2

theorem setD_oob (arr : Array PhysicsBody) (i : ℕ) (v : PhysicsBody)
    (h : ¬ i < arr.size) : arr.setD i v = arr := by
  unfold Array.setD
  simp [h]

theorem getD_oob (arr : Array PhysicsBody) (i : ℕ)
    (h : ¬ i < arr.size) : arr.getD i default = default := by
  unfold Array.getD
  simp [h]

theorem getD_setD_self (arr : Array PhysicsBody) (i : ℕ) (v : PhysicsBody)
    (h : i < arr.size) : (arr.setD i v).getD i default = v := by
  unfold Array.setD Array.getD
  simp [h]

theorem getD_setD_ne (arr : Array PhysicsBody) (i j : ℕ) (v : PhysicsBody)
    (h : i ≠ j) : (arr.setD i v).getD j default = arr.getD j default := by
  unfold Array.setD Array.getD
  split <;> simp_all [Array.getElem_set_ne]

theorem frames_ok_refl (arr : Array PhysicsBody) : frames_ok arr arr :=
  ⟨rfl, fun _ => frame_preserved_refl _⟩

theorem frames_ok_trans {o m n : Array PhysicsBody}
    (h1 : frames_ok o m) (h2 : frames_ok m n) : frames_ok o n :=
  ⟨h2.1.trans h1.1, fun k => frame_preserved_trans (h1.2 k) (h2.2 k)⟩

theorem frames_ok_set_pair (arr : Array PhysicsBody) (i j : ℕ)
    (v w : PhysicsBody)
    (hv : frame_preserved (arr.getD i default) v)
    (hw : frame_preserved (arr.getD j default) w) :
    frames_ok arr ((arr.setD i v).setD j w) := by
  refine ⟨by simp [Array.size_setD], fun k => ?_⟩
  by_cases hkj : k = j
  · subst hkj
    by_cases hk : k < arr.size
    · rw [getD_setD_self _ _ _ (by simpa [Array.size_setD] using hk)]
      exact hw
    · rw [getD_oob ((arr.setD i v).setD k w) k
          (by simpa [Array.size_setD] using hk), getD_oob arr k hk]
      exact frame_preserved_refl _
  · rw [getD_setD_ne _ _ _ _ (fun hji => hkj hji.symm)]
    by_cases hki : k = i
    · subst hki
      by_cases hk : k < arr.size
      · rw [getD_setD_self _ _ _ hk]
        exact hv
      · rw [setD_oob _ _ _ hk, getD_oob _ _ hk]
        exact frame_preserved_refl _
    · rw [getD_setD_ne _ _ _ _ (fun hik => hki hik.symm)]
      exact frame_preserved_refl _

theorem collide_inner_frames (sqrtA : ℚ → ℚ) (bounds : WorldBounds) (i : ℕ)
    (vis : Bool) (js : List ℕ) (orig : Array PhysicsBody) :
    ∀ st : Array PhysicsBody × SimpleRng, frames_ok orig st.1 →
      frames_ok orig (collide_inner sqrtA bounds i vis js st).1 := by
  induction js with
  | nil =>
    intro st h
    obtain ⟨arr, rng⟩ := st
    exact h
  | cons j js ih =>
    intro st h
    obtain ⟨arr, rng⟩ := st
    simp only [collide_inner]
    apply ih
    exact frames_ok_trans h
      (frames_ok_set_pair arr i j _ _
        (resolve_pair_frame1 sqrtA bounds vis _ _ rng)
        (resolve_pair_frame2 sqrtA bounds vis _ _ rng))

theorem collide_outer_frames (sqrtA : ℚ → ℚ) (bounds : WorldBounds)
    (is : List ℕ) (orig : Array PhysicsBody) :
    ∀ st : Array PhysicsBody × SimpleRng, frames_ok orig st.1 →
      frames_ok orig (collide_outer sqrtA bounds is st).1 := by
  induction is with
  | nil =>
    intro st h
    obtain ⟨arr, rng⟩ := st
    exact h
  | cons i is ih =>
    intro st h
    obtain ⟨arr, rng⟩ := st
    simp only [collide_outer]
    apply ih
    split_ifs
    · exact h
    · exact collide_inner_frames sqrtA bounds i _ _ orig (arr, rng) h

theorem physics_step_frames (sqrtA : ℚ → ℚ) (bodies : Array PhysicsBody)
    (dt gravity_y : ℚ) (bounds : WorldBounds) (rng : SimpleRng) :
    frames_ok bodies (physics_step sqrtA bodies dt gravity_y bounds rng).1 := by
  unfold physics_step
  split_ifs
  · exact frames_ok_refl bodies
  · exact frames_ok_refl bodies
  · apply collide_outer_frames
    show frames_ok bodies (bodies.map (integrate_body dt gravity_y bounds))
    refine ⟨by simp, fun k => ?_⟩
    by_cases hk : k < bodies.size
    · have hmap : (bodies.map (integrate_body dt gravity_y bounds)).getD k default =
          integrate_body dt gravity_y bounds (bodies.getD k default) := by
        unfold Array.getD
        simp [hk, Array.getElem_map]
      rw [hmap]
      exact integrate_body_frame dt gravity_y bounds _
    · rw [getD_oob (bodies.map (integrate_body dt gravity_y bounds)) k
          (by simpa using hk), getD_oob bodies k hk]
      exact frame_preserved_refl _

/-- C10: `physics_step` never changes a body's radius, inverse mass,
restitution, group identifier or pop chance, and never clears the popped
flag — a body popped before the step is still popped after it; clearing the
flag is done only by the lifecycle respawn operation `bubble_respawn_body`,
which always returns a body with the flag cleared. -/
theorem c10_frame_effect (sqrtA : ℚ → ℚ) (bodies : Array PhysicsBody)
    (dt gravity_y : ℚ) (bounds : WorldBounds) (rng : SimpleRng) (i : ℕ)
    (groups : List BubbleGroupConfig) (b : PhysicsBody) (rng2 : SimpleRng)
    (_hi : i < bodies.size) :
    (((physics_step sqrtA bodies dt gravity_y bounds rng).1.getD i default).radius =
        (bodies.getD i default).radius ∧
      ((physics_step sqrtA bodies dt gravity_y bounds rng).1.getD i default).inv_mass =
        (bodies.getD i default).inv_mass ∧
      ((physics_step sqrtA bodies dt gravity_y bounds rng).1.getD i default).restitution =
        (bodies.getD i default).restitution ∧
      ((physics_step sqrtA bodies dt gravity_y bounds rng).1.getD i default).group =
        (bodies.getD i default).group ∧
      ((physics_step sqrtA bodies dt gravity_y bounds rng).1.getD i default).pop_chance =
        (bodies.getD i default).pop_chance ∧
      ((bodies.getD i default).popped = true →
        ((physics_step sqrtA bodies dt gravity_y bounds rng).1.getD i default).popped =
          true)) ∧
    (bubble_respawn_body groups bounds b rng2).1.popped = false := by
  constructor
  · exact (physics_step_frames sqrtA bodies dt gravity_y bounds rng).2 i
  · rfl

theorem c10_witness :
    (((physics_step sqrtTab #[⟨10, 10, 0, 0, 0, 1, 1, 1, 0, 0, 0, 0, true⟩,
          ⟨13, 14, 0, 0, 0, 0, 3, 1, 1/2, 0, 0, 1, false⟩] 1 0 ⟨0, 100, 0, 100⟩
          ⟨1⟩).1.getD 0 default).radius =
        ((#[⟨10, 10, 0, 0, 0, 1, 1, 1, 0, 0, 0, 0, true⟩,
          ⟨13, 14, 0, 0, 0, 0, 3, 1, 1/2, 0, 0, 1, false⟩] :
            Array PhysicsBody).getD 0 default).radius ∧
      (((physics_step sqrtTab #[⟨10, 10, 0, 0, 0, 1, 1, 1, 0, 0, 0, 0, true⟩,
          ⟨13, 14, 0, 0, 0, 0, 3, 1, 1/2, 0, 0, 1, false⟩] 1 0 ⟨0, 100, 0, 100⟩
          ⟨1⟩).1.getD 0 default).inv_mass =
        ((#[⟨10, 10, 0, 0, 0, 1, 1, 1, 0, 0, 0, 0, true⟩,
          ⟨13, 14, 0, 0, 0, 0, 3, 1, 1/2, 0, 0, 1, false⟩] :
            Array PhysicsBody).getD 0 default).inv_mass) ∧
      (((physics_step sqrtTab #[⟨10, 10, 0, 0, 0, 1, 1, 1, 0, 0, 0, 0, true⟩,
          ⟨13, 14, 0, 0, 0, 0, 3, 1, 1/2, 0, 0, 1, false⟩] 1 0 ⟨0, 100, 0, 100⟩
          ⟨1⟩).1.getD 0 default).restitution =
        ((#[⟨10, 10, 0, 0, 0, 1, 1, 1, 0, 0, 0, 0, true⟩,
          ⟨13, 14, 0, 0, 0, 0, 3, 1, 1/2, 0, 0, 1, false⟩] :
            Array PhysicsBody).getD 0 default).restitution) ∧
      (((physics_step sqrtTab #[⟨10, 10, 0, 0, 0, 1, 1, 1, 0, 0, 0, 0, true⟩,
          ⟨13, 14, 0, 0, 0, 0, 3, 1, 1/2, 0, 0, 1, false⟩] 1 0 ⟨0, 100, 0, 100⟩
          ⟨1⟩).1.getD 0 default).group =
        ((#[⟨10, 10, 0, 0, 0, 1, 1, 1, 0, 0, 0, 0, true⟩,
          ⟨13, 14, 0, 0, 0, 0, 3, 1, 1/2, 0, 0, 1, false⟩] :
            Array PhysicsBody).getD 0 default).group) ∧
      (((physics_step sqrtTab #[⟨10, 10, 0, 0, 0, 1, 1, 1, 0, 0, 0, 0, true⟩,
          ⟨13, 14, 0, 0, 0, 0, 3, 1, 1/2, 0, 0, 1, false⟩] 1 0 ⟨0, 100, 0, 100⟩
          ⟨1⟩).1.getD 0 default).pop_chance =
        ((#[⟨10, 10, 0, 0, 0, 1, 1, 1, 0, 0, 0, 0, true⟩,
          ⟨13, 14, 0, 0, 0, 0, 3, 1, 1/2, 0, 0, 1, false⟩] :
            Array PhysicsBody).getD 0 default).pop_chance) ∧
      (((#[⟨10, 10, 0, 0, 0, 1, 1, 1, 0, 0, 0, 0, true⟩,
          ⟨13, 14, 0, 0, 0, 0, 3, 1, 1/2, 0, 0, 1, false⟩] :
            Array PhysicsBody).getD 0 default).popped = true →
        ((physics_step sqrtTab #[⟨10, 10, 0, 0, 0, 1, 1, 1, 0, 0, 0, 0, true⟩,
          ⟨13, 14, 0, 0, 0, 0, 3, 1, 1/2, 0, 0, 1, false⟩] 1 0 ⟨0, 100, 0, 100⟩
          ⟨1⟩).1.getD 0 default).popped = true)) ∧
    (bubble_respawn_body [⟨22, 3, 60, 4/5, 1⟩] ⟨0, 100, 0, 100⟩
      ⟨50, 50, 0, 0, 0, 0, 3, 1, 1/2, 0, 0, 1, true⟩ ⟨7⟩).1.popped = false := by
  exact c10_frame_effect sqrtTab
    #[⟨10, 10, 0, 0, 0, 1, 1, 1, 0, 0, 0, 0, true⟩,
      ⟨13, 14, 0, 0, 0, 0, 3, 1, 1/2, 0, 0, 1, false⟩] 1 0 ⟨0, 100, 0, 100⟩ ⟨1⟩ 0
    [⟨22, 3, 60, 4/5, 1⟩] ⟨50, 50, 0, 0, 0, 0, 3, 1, 1/2, 0, 0, 1, true⟩ ⟨7⟩
    (by norm_num)
